import Mathlib

/-!
Formal model of the wavelet filter registry implemented in
`7_declipping/wavelet_impainting/wavelets/wavelets.py`.

The Python function `get_wavelet_filter(name, param)` consists of three
sequential `if name == ...:` blocks (Daubechies, Coiflet, Symmlet), each of
which first validates `param` against the family's `supported_params` tuple
(raising `TypeError` on failure) and then assigns the local variable `f`
through a chain of `if param == k:` statements, followed by a final
`return np.array([0] + f)`.

Modelling choices:
- Each coefficient literal in the source has exactly 12 decimal digits, so a
  tap is represented exactly as a rational `n / 10 ^ 12`.
- The Python local `f`, which starts out unbound, is an `Option (List ℚ)`;
  reaching the final `return` with `f` still unbound raises
  `UnboundLocalError`, which the model reports through `PyError`.
- Raised exceptions are the `Except.error` side of the result; each of the
  three source blocks becomes one function threading `f` through
  `Except.bind`, preserving the sequential (non-exclusive) dispatch of the
  source.
-/

/-- The exception kinds the source function can raise: the `TypeError`
raised by the explicit parameter checks, and the `UnboundLocalError` the
interpreter raises at `return np.array([0] + f)` when no branch assigned
`f`. -/
inductive PyError where
  | typeError : String → PyError
  | unboundLocalError : String → PyError
  deriving DecidableEq

deriving instance DecidableEq for Except

/-- A filter tap with 12 decimal digits, represented exactly:
`tap n = n / 10 ^ 12` as a rational. -/
def tap (n : Int) : ℚ := mkRat n (10 ^ 12)

/-- Python's `repr` of a non-empty tuple of integers, as interpolated into
the `TypeError` message by `f"Supported params for {name}: {supported_params}"`. -/
def pyIntTupleRepr (xs : List Int) : String :=
  match xs with
  | [x] => "(" ++ toString x ++ ",)"
  | _ => "(" ++ String.intercalate ", " (xs.map toString) ++ ")"

/-- The `if name == 'Daubechies':` block of the source. -/
def daubechiesBlock (name : String) (param : Int) (f : Option (List ℚ)) :
    Except PyError (Option (List ℚ)) :=
  if name = "Daubechies" then
    let supported_params : List Int := [4, 6, 8, 10, 20]
    if param ∉ supported_params then
      Except.error (PyError.typeError
        ("Supported params for " ++ name ++ ": " ++ pyIntTupleRepr supported_params))
    else
      let f := if param = 4 then
        some [tap 482962913145, tap 836516303738, tap 224143868042,
          tap (-129409522551)] else f
      let f := if param = 6 then
        some [tap 332670552950, tap 806891509311, tap 459877502118,
          tap (-135011020010), tap (-85441273882), tap 35226291882] else f
      let f := if param = 8 then
        some [tap 230377813309, tap 714846570553,
          tap 630880767930, tap (-27983769417),
          tap (-187034811719), tap 30841381836,
          tap 32883011667, tap (-10597401785)] else f
      let f := if param = 10 then
        some [tap 160102397974, tap 603829269797, tap 724308528438,
          tap 138428145901, tap (-242294887066), tap (-32244869585),
          tap 77571493840, tap (-6241490213), tap (-12580751999),
          tap 3335725285] else f
      let f := if param = 20 then
        some [tap 26670057901, tap 188176800078, tap 527201188932,
          tap 688459039454, tap 281172343661, tap (-249846424327),
          tap (-195946274377), tap 127369340336, tap 93057364604,
          tap (-71394147166), tap (-29457536822), tap 33212674059,
          tap 3606553567, tap (-10733175483), tap 1395351747,
          tap 1992405295, tap (-685856695), tap (-116466855),
          tap 93588670, tap (-13264203)] else f
      Except.ok f
  else
    Except.ok f

/-- The `if name == 'Coiflet':` block of the source. -/
def coifletBlock (name : String) (param : Int) (f : Option (List ℚ)) :
    Except PyError (Option (List ℚ)) :=
  if name = "Coiflet" then
    let supported_params : List Int := [2]
    if param ∉ supported_params then
      Except.error (PyError.typeError
        ("Supported params for " ++ name ++ ": " ++ pyIntTupleRepr supported_params))
    else
      let f := if param = 2 then
        some [tap 16387336463, tap (-41464936782), tap (-67372554722),
          tap 386110066823, tap 812723635450, tap 417005184424,
          tap (-76488599078), tap (-59434418646), tap 23680171947,
          tap 5611434819, tap (-1823208871), tap (-720549445)] else f
      Except.ok f
  else
    Except.ok f

/-- The `if name == 'Symmlet':` block of the source. -/
def symmletBlock (name : String) (param : Int) (f : Option (List ℚ)) :
    Except PyError (Option (List ℚ)) :=
  if name = "Symmlet" then
    let supported_params : List Int := [4]
    if param ∉ supported_params then
      Except.error (PyError.typeError
        ("Supported params for " ++ name ++ ": " ++ pyIntTupleRepr supported_params))
    else
      let f := if param = 4 then
        some [tap (-107148901418), tap (-41910965125), tap 703739068656,
          tap 1136658243408, tap 421234534204, tap (-140317624179),
          tap (-17824701442), tap 45570345896] else f
      Except.ok f
  else
    Except.ok f

/-- `get_wavelet_filter(name, param)`: the three family blocks run in
sequence on the initially unbound local `f`, then
`return np.array([0] + f)` prepends a zero tap, raising
`UnboundLocalError` when `f` was never assigned. -/
def get_wavelet_filter (name : String) (param : Int) : Except PyError (List ℚ) :=
  (daubechiesBlock name param none).bind fun f =>
  (coifletBlock name param f).bind fun f =>
  (symmletBlock name param f).bind fun f =>
  match f with
  | some taps => Except.ok ((0 : ℚ) :: taps)
  | none => Except.error (PyError.unboundLocalError "f")

/-- Whether a call returned a value (rather than raising). -/
def resultIsOk : Except PyError (List ℚ) → Bool
  | .ok _ => true
  | .error _ => false

/-- The supported parameter set of each recognized family, as fixed in the
three `supported_params` tuples of the source. -/
def supportedParamsOf (name : String) : List Int :=
  if name = "Daubechies" then [4, 6, 8, 10, 20]
  else if name = "Coiflet" then [2]
  else if name = "Symmlet" then [4]
  else []

/-- Lower-cases every character of a string, so that two strings differ
only by letter case exactly when their images under `caseFold` agree. -/
def caseFold (s : String) : String := String.mk (s.data.map Char.toLower)

/-- Removes surrounding (leading and trailing) whitespace characters. -/
def stripWs (s : String) : String :=
  String.mk (((s.data.dropWhile Char.isWhitespace).reverse.dropWhile Char.isWhitespace).reverse)

/-- Transcription of the specification's §4.1 table of supported
combinations, as `(family, parameter, taps)` triples with the taps in the
listed order. This definition follows the specification's words, to be
compared against `get_wavelet_filter`. -/
def specTable : List (String × Int × List ℚ) :=
  [("Daubechies", 4,
    [tap 482962913145, tap 836516303738, tap 224143868042,
     tap (-129409522551)]),
   ("Daubechies", 6,
    [tap 332670552950, tap 806891509311, tap 459877502118,
     tap (-135011020010), tap (-85441273882), tap 35226291882]),
   ("Daubechies", 8,
    [tap 230377813309, tap 714846570553, tap 630880767930,
     tap (-27983769417), tap (-187034811719), tap 30841381836,
     tap 32883011667, tap (-10597401785)]),
   ("Daubechies", 10,
    [tap 160102397974, tap 603829269797, tap 724308528438,
     tap 138428145901, tap (-242294887066), tap (-32244869585),
     tap 77571493840, tap (-6241490213), tap (-12580751999),
     tap 3335725285]),
   ("Daubechies", 20,
    [tap 26670057901, tap 188176800078, tap 527201188932,
     tap 688459039454, tap 281172343661, tap (-249846424327),
     tap (-195946274377), tap 127369340336, tap 93057364604,
     tap (-71394147166), tap (-29457536822), tap 33212674059,
     tap 3606553567, tap (-10733175483), tap 1395351747,
     tap 1992405295, tap (-685856695), tap (-116466855),
     tap 93588670, tap (-13264203)]),
   ("Coiflet", 2,
    [tap 16387336463, tap (-41464936782), tap (-67372554722),
     tap 386110066823, tap 812723635450, tap 417005184424,
     tap (-76488599078), tap (-59434418646), tap 23680171947,
     tap 5611434819, tap (-1823208871), tap (-720549445)]),
   ("Symmlet", 4,
    [tap (-107148901418), tap (-41910965125), tap 703739068656,
     tap 1136658243408, tap 421234534204, tap (-140317624179),
     tap (-17824701442), tap 45570345896])]

lemma daubechiesBlock_skip (name : String) (param : Int) (f : Option (List ℚ))
    (h : name ≠ "Daubechies") : daubechiesBlock name param f = Except.ok f := by
  unfold daubechiesBlock
  rw [if_neg h]

lemma coifletBlock_skip (name : String) (param : Int) (f : Option (List ℚ))
    (h : name ≠ "Coiflet") : coifletBlock name param f = Except.ok f := by
  unfold coifletBlock
  rw [if_neg h]

lemma symmletBlock_skip (name : String) (param : Int) (f : Option (List ℚ))
    (h : name ≠ "Symmlet") : symmletBlock name param f = Except.ok f := by
  unfold symmletBlock
  rw [if_neg h]

lemma daubechiesBlock_bad (param : Int) (h : param ∉ ([4, 6, 8, 10, 20] : List Int)) :
    daubechiesBlock "Daubechies" param none = Except.error
      (PyError.typeError "Supported params for Daubechies: (4, 6, 8, 10, 20)") := by
  unfold daubechiesBlock
  rw [if_pos rfl]
  dsimp only
  rw [if_pos h]
  rfl

lemma coifletBlock_bad (param : Int) (h : param ∉ ([2] : List Int)) :
    coifletBlock "Coiflet" param none = Except.error
      (PyError.typeError "Supported params for Coiflet: (2,)") := by
  unfold coifletBlock
  rw [if_pos rfl]
  dsimp only
  rw [if_pos h]
  rfl

lemma symmletBlock_bad (param : Int) (h : param ∉ ([4] : List Int)) :
    symmletBlock "Symmlet" param none = Except.error
      (PyError.typeError "Supported params for Symmlet: (4,)") := by
  unfold symmletBlock
  rw [if_pos rfl]
  dsimp only
  rw [if_pos h]
  rfl

lemma gwf_daubechies_bad (param : Int) (h : param ∉ ([4, 6, 8, 10, 20] : List Int)) :
    get_wavelet_filter "Daubechies" param = Except.error
      (PyError.typeError "Supported params for Daubechies: (4, 6, 8, 10, 20)") := by
  unfold get_wavelet_filter
  rw [daubechiesBlock_bad param h]
  rfl

lemma gwf_coiflet_bad (param : Int) (h : param ∉ ([2] : List Int)) :
    get_wavelet_filter "Coiflet" param = Except.error
      (PyError.typeError "Supported params for Coiflet: (2,)") := by
  unfold get_wavelet_filter
  rw [daubechiesBlock_skip "Coiflet" param none (by decide)]
  simp only [Except.bind]
  rw [coifletBlock_bad param h]

lemma gwf_symmlet_bad (param : Int) (h : param ∉ ([4] : List Int)) :
    get_wavelet_filter "Symmlet" param = Except.error
      (PyError.typeError "Supported params for Symmlet: (4,)") := by
  unfold get_wavelet_filter
  rw [daubechiesBlock_skip "Symmlet" param none (by decide)]
  simp only [Except.bind]
  rw [coifletBlock_skip "Symmlet" param none (by decide)]
  simp only [Except.bind]
  rw [symmletBlock_bad param h]

lemma gwf_unknown (name : String) (param : Int)
    (h1 : name ≠ "Daubechies") (h2 : name ≠ "Coiflet") (h3 : name ≠ "Symmlet") :
    get_wavelet_filter name param = Except.error (PyError.unboundLocalError "f") := by
  unfold get_wavelet_filter
  rw [daubechiesBlock_skip name param none h1]
  simp only [Except.bind]
  rw [coifletBlock_skip name param none h2]
  simp only [Except.bind]
  rw [symmletBlock_skip name param none h3]

lemma gwf_daubechies_ok (param : Int) (h : param ∈ ([4, 6, 8, 10, 20] : List Int)) :
    resultIsOk (get_wavelet_filter "Daubechies" param) = true := by
  fin_cases h <;> decide

lemma gwf_coiflet_ok (param : Int) (h : param ∈ ([2] : List Int)) :
    resultIsOk (get_wavelet_filter "Coiflet" param) = true := by
  fin_cases h
  decide

lemma gwf_symmlet_ok (param : Int) (h : param ∈ ([4] : List Int)) :
    resultIsOk (get_wavelet_filter "Symmlet" param) = true := by
  fin_cases h
  decide

/-- C1: For every supported `(family, parameter)` pair listed in the
specification's §4.1 table, `get_wavelet_filter family parameter` returns
the vector `[0.0]` followed by exactly the listed tap coefficients in the
listed order — no reordering, no normalization, no sign flip. -/
theorem get_wavelet_filter_matches_spec_table :
    ∀ e ∈ specTable, get_wavelet_filter e.1 e.2.1 = Except.ok ((0 : ℚ) :: e.2.2) := by
  decide

/-- Concrete instance of the table correspondence at Daubechies 4. -/
theorem get_wavelet_filter_matches_spec_table_witness :
    get_wavelet_filter "Daubechies" 4 = Except.ok ((0 : ℚ) ::
      [tap 482962913145, tap 836516303738, tap 224143868042, tap (-129409522551)]) :=
  get_wavelet_filter_matches_spec_table
    ("Daubechies", 4,
      [tap 482962913145, tap 836516303738, tap 224143868042, tap (-129409522551)])
    (by decide)

/-- C2: for the unrecognized family "Haar" the source does not report an
Unrecognized Family error: the final `return np.array([0] + f)` raises
`UnboundLocalError` on the never-assigned local `f` instead of an explicit
report. -/
theorem get_wavelet_filter_haar_unbound_local :
    get_wavelet_filter "Haar" 4 = Except.error (PyError.unboundLocalError "f") := by
  decide

/-- C3: for every recognized family and integer parameter outside that
family's supported set, the call fails with the Unsupported Parameter
`TypeError` naming the family and listing its full set of legal parameters,
and never returns a value. -/
theorem get_wavelet_filter_unsupported_param (param : Int) :
    (param ∉ ([4, 6, 8, 10, 20] : List Int) →
      get_wavelet_filter "Daubechies" param = Except.error
        (PyError.typeError "Supported params for Daubechies: (4, 6, 8, 10, 20)")) ∧
    (param ∉ ([2] : List Int) →
      get_wavelet_filter "Coiflet" param = Except.error
        (PyError.typeError "Supported params for Coiflet: (2,)")) ∧
    (param ∉ ([4] : List Int) →
      get_wavelet_filter "Symmlet" param = Except.error
        (PyError.typeError "Supported params for Symmlet: (4,)")) :=
  ⟨fun h => gwf_daubechies_bad param h,
   fun h => gwf_coiflet_bad param h,
   fun h => gwf_symmlet_bad param h⟩

/-- Concrete instances of the Unsupported Parameter failure at parameter 3. -/
theorem get_wavelet_filter_unsupported_param_witness :
    get_wavelet_filter "Daubechies" 3 = Except.error
      (PyError.typeError "Supported params for Daubechies: (4, 6, 8, 10, 20)") ∧
    get_wavelet_filter "Coiflet" 3 = Except.error
      (PyError.typeError "Supported params for Coiflet: (2,)") ∧
    get_wavelet_filter "Symmlet" 3 = Except.error
      (PyError.typeError "Supported params for Symmlet: (4,)") :=
  ⟨(get_wavelet_filter_unsupported_param 3).1 (by decide),
   (get_wavelet_filter_unsupported_param 3).2.1 (by decide),
   (get_wavelet_filter_unsupported_param 3).2.2 (by decide)⟩

/-- C4: for every supported pair the returned vector's length is the pair's
tap count plus one: Daubechies 4, 6, 8, 10, 20 give 5, 7, 9, 11, 21;
Coiflet 2 gives 13; Symmlet 4 gives 9. -/
theorem get_wavelet_filter_length :
    (get_wavelet_filter "Daubechies" 4).toOption.map List.length = some 5 ∧
    (get_wavelet_filter "Daubechies" 6).toOption.map List.length = some 7 ∧
    (get_wavelet_filter "Daubechies" 8).toOption.map List.length = some 9 ∧
    (get_wavelet_filter "Daubechies" 10).toOption.map List.length = some 11 ∧
    (get_wavelet_filter "Daubechies" 20).toOption.map List.length = some 21 ∧
    (get_wavelet_filter "Coiflet" 2).toOption.map List.length = some 13 ∧
    (get_wavelet_filter "Symmlet" 4).toOption.map List.length = some 9 := by
  decide

/-- C5: for every supported pair in the specification's table, the first
element of the returned vector is exactly `0.0`. -/
theorem get_wavelet_filter_head_zero :
    ∀ e ∈ specTable,
      (get_wavelet_filter e.1 e.2.1).toOption.bind List.head? = some (0 : ℚ) := by
  decide

/-- Concrete instance of the leading zero at Symmlet 4. -/
theorem get_wavelet_filter_head_zero_witness :
    (get_wavelet_filter "Symmlet" 4).toOption.bind List.head? = some (0 : ℚ) :=
  get_wavelet_filter_head_zero
    ("Symmlet", 4,
      [tap (-107148901418), tap (-41910965125), tap 703739068656,
       tap 1136658243408, tap 421234534204, tap (-140317624179),
       tap (-17824701442), tap 45570345896])
    (by decide)

/-- C6: the function is a pure mapping of its two arguments — it consults no
external state, so two calls with identical arguments produce identical
results. -/
theorem get_wavelet_filter_deterministic (name : String) (param : Int) :
    get_wavelet_filter name param = get_wavelet_filter name param := rfl

/-- C7: every call completes, either returning a vector or failing with an
error. -/
theorem get_wavelet_filter_total (name : String) (param : Int) :
    (∃ v, get_wavelet_filter name param = Except.ok v) ∨
    (∃ e, get_wavelet_filter name param = Except.error e) := by
  cases h : get_wavelet_filter name param with
  | ok v => exact Or.inl ⟨v, rfl⟩
  | error e => exact Or.inr ⟨e, rfl⟩

/-- C8: for any family outside the three recognized identifiers, no
parameter value ever produces the Unsupported Parameter `TypeError`: the
call always fails with `UnboundLocalError` because the per-family parameter
checks are only reached after the family matches. -/
theorem get_wavelet_filter_unknown_family_no_param_error (name : String) (param : Int)
    (h1 : name ≠ "Daubechies") (h2 : name ≠ "Coiflet") (h3 : name ≠ "Symmlet") :
    get_wavelet_filter name param = Except.error (PyError.unboundLocalError "f") ∧
    ∀ msg, get_wavelet_filter name param ≠ Except.error (PyError.typeError msg) := by
  have h0 := gwf_unknown name param h1 h2 h3
  refine ⟨h0, fun msg hmsg => ?_⟩
  rw [h0] at hmsg
  simp at hmsg

/-- Concrete instance: family "Haar" with a parameter legal for Coiflet. -/
theorem get_wavelet_filter_unknown_family_no_param_error_witness :
    get_wavelet_filter "Haar" 2 = Except.error (PyError.unboundLocalError "f") :=
  (get_wavelet_filter_unknown_family_no_param_error "Haar" 2
    (by decide) (by decide) (by decide)).1

/-- C9: family matching is exact, case-sensitive string equality: every
input that differs from "Daubechies", "Coiflet" or "Symmlet" only by
letter case or surrounding whitespace, without being exactly that
identifier, matches no family block, so `f` is never assigned and no
coefficient branch is reached. -/
theorem get_wavelet_filter_case_sensitive (name : String) (param : Int)
    (hvar : (caseFold (stripWs name) = caseFold "Daubechies" ∧ name ≠ "Daubechies") ∨
            (caseFold (stripWs name) = caseFold "Coiflet" ∧ name ≠ "Coiflet") ∨
            (caseFold (stripWs name) = caseFold "Symmlet" ∧ name ≠ "Symmlet")) :
    get_wavelet_filter name param = Except.error (PyError.unboundLocalError "f") := by
  rcases hvar with ⟨hv, hne⟩ | ⟨hv, hne⟩ | ⟨hv, hne⟩
  · exact gwf_unknown name param hne
      (fun h => by rw [h] at hv; exact absurd hv (by decide))
      (fun h => by rw [h] at hv; exact absurd hv (by decide))
  · exact gwf_unknown name param
      (fun h => by rw [h] at hv; exact absurd hv (by decide)) hne
      (fun h => by rw [h] at hv; exact absurd hv (by decide))
  · exact gwf_unknown name param
      (fun h => by rw [h] at hv; exact absurd hv (by decide))
      (fun h => by rw [h] at hv; exact absurd hv (by decide)) hne

/-- Concrete case and whitespace variants of the three identifiers. -/
theorem get_wavelet_filter_case_sensitive_witness :
    get_wavelet_filter "daubechies" 4 = Except.error (PyError.unboundLocalError "f") ∧
    get_wavelet_filter "SYMMLET" 4 = Except.error (PyError.unboundLocalError "f") ∧
    get_wavelet_filter " Daubechies " 4 = Except.error (PyError.unboundLocalError "f") ∧
    get_wavelet_filter "coiflet" 2 = Except.error (PyError.unboundLocalError "f") :=
  ⟨get_wavelet_filter_case_sensitive "daubechies" 4 (Or.inl ⟨by decide, by decide⟩),
   get_wavelet_filter_case_sensitive "SYMMLET" 4 (Or.inr (Or.inr ⟨by decide, by decide⟩)),
   get_wavelet_filter_case_sensitive " Daubechies " 4 (Or.inl ⟨by decide, by decide⟩),
   get_wavelet_filter_case_sensitive "coiflet" 2 (Or.inr (Or.inl ⟨by decide, by decide⟩))⟩

/-- C10: whenever a call with a recognized family fails, the raised
exception is the single `TypeError` kind carrying the message
`Supported params for {family}: {supported_params}`; no other exception
kind occurs on that path. -/
theorem get_wavelet_filter_error_kind (name : String) (param : Int) (e : PyError)
    (hfam : name = "Daubechies" ∨ name = "Coiflet" ∨ name = "Symmlet")
    (herr : get_wavelet_filter name param = Except.error e) :
    e = PyError.typeError
      ("Supported params for " ++ name ++ ": " ++ pyIntTupleRepr (supportedParamsOf name)) := by
  rcases hfam with h | h | h
  · subst h
    by_cases hp : param ∈ ([4, 6, 8, 10, 20] : List Int)
    · exfalso
      have hok := gwf_daubechies_ok param hp
      rw [herr] at hok
      simp [resultIsOk] at hok
    · have hbad := gwf_daubechies_bad param hp
      rw [hbad] at herr
      injection herr with h2
      rw [← h2]
      rfl
  · subst h
    by_cases hp : param ∈ ([2] : List Int)
    · exfalso
      have hok := gwf_coiflet_ok param hp
      rw [herr] at hok
      simp [resultIsOk] at hok
    · have hbad := gwf_coiflet_bad param hp
      rw [hbad] at herr
      injection herr with h2
      rw [← h2]
      rfl
  · subst h
    by_cases hp : param ∈ ([4] : List Int)
    · exfalso
      have hok := gwf_symmlet_ok param hp
      rw [herr] at hok
      simp [resultIsOk] at hok
    · have hbad := gwf_symmlet_bad param hp
      rw [hbad] at herr
      injection herr with h2
      rw [← h2]
      rfl

/-- Concrete instance: the Coiflet failure at parameter 5 carries exactly
the templated message. -/
theorem get_wavelet_filter_error_kind_witness :
    PyError.typeError "Supported params for Coiflet: (2,)" = PyError.typeError
      ("Supported params for " ++ "Coiflet" ++ ": " ++
        pyIntTupleRepr (supportedParamsOf "Coiflet")) :=
  get_wavelet_filter_error_kind "Coiflet" 5
    (PyError.typeError "Supported params for Coiflet: (2,)")
    (Or.inr (Or.inl rfl)) (by decide)
